import Mathlib

/-!
# Verification of the study-cost-calculator cash-flow engine and UI glue

Shallow embedding of the study-abroad cost calculator. The repository ships
`app.py` (the Streamlit front end, embedded below as `mainFlow`,
`pdfExportStep` and `create_cashflow_chart`); the cash-flow engine
(`calculator.py`, class `StudyCostCalculator`) is not part of the sources at
hand, so the engine is modelled from the specification (§3, §4.2) over exact
rationals. Monetary quantities are `ℚ`.
-/

/-- Tuition payment mode: 一次性 (lump sum) or 分期 (installment). -/
inductive TuitionPayment where
  | lumpSum
  | installment
deriving DecidableEq, Repr

/-- Rent type: 单间 (private room), 合租 (shared room), 宿舍 (dormitory). -/
inductive RentType where
  | privateRoom
  | sharedRoom
  | dormitory
deriving DecidableEq, Repr

/-- Modelled from the spec: `SimulationInput` (§3), the immutable input record
built once per calculation run. -/
structure SimulationInput where
  country : String
  city : String
  rent_type : RentType
  has_job : Bool
  weekly_hours : ℚ
  hourly_wage : ℚ
  initial_deposit : ℚ
  tuition_total : ℚ
  tuition_payment : TuitionPayment
deriving DecidableEq, Repr

/-- Modelled from the spec: `CityEconomics` (§3), the Cost Lookup result,
consumed as a value and never mutated. -/
structure CityEconomics where
  monthly_rent : ℚ
  monthly_living_cost : ℚ
  currency : String
  currency_symbol : String
  data_sources : List String
deriving DecidableEq, Repr

/-- Modelled from the spec: `MonthRecord` (§3), one row of the 12-month ledger. -/
structure MonthRecord where
  month_label : String
  income : ℚ
  expense : ℚ
  net : ℚ
  cumulative_balance : ℚ
deriving DecidableEq, Repr

instance : Inhabited MonthRecord :=
  ⟨{ month_label := "", income := 0, expense := 0, net := 0, cumulative_balance := 0 }⟩

/-- Modelled from the spec: `SimulationSummary` (§3), the derived aggregate. -/
structure SimulationSummary where
  monthly_income : ℚ
  monthly_rent : ℚ
  monthly_living_cost : ℚ
  monthly_expense_base : ℚ
  final_balance : ℚ
  min_balance : ℚ
  critical_months : List String
  need_support : ℚ
  currency : String
  currency_symbol : String
  data_sources : List String
deriving DecidableEq, Repr

/-- Modelled from the spec: monthly income (§4.2 step 2) —
`weekly_hours × 4.33 × hourly_wage` if `has_job`, else `0`.
`4.33` is the fixed weeks-per-month factor, written `433/100` in `ℚ`. -/
def monthlyIncome (has_job : Bool) (weekly_hours hourly_wage : ℚ) : ℚ :=
  if has_job then weekly_hours * (433 / 100) * hourly_wage else 0

/-- Modelled from the spec: the tuition schedule (§4.2 step 3). Months are
numbered 1..12 starting at September. LumpSum charges the whole
`tuition_total` in month 1; Installment charges `tuition_total / 10` in
months 1–10 and nothing in months 11–12. -/
def tuitionInstallment (pay : TuitionPayment) (tuition_total : ℚ) (month : ℕ) : ℚ :=
  match pay with
  | .lumpSum => if month = 1 then tuition_total else 0
  | .installment => if month ≤ 10 then tuition_total / 10 else 0

/-- Modelled from the spec: the fixed chronological month sequence
(September first, August last), paired with the 1-based month number. -/
def monthsIndexed : List (ℕ × String) :=
  [(1, "September"), (2, "October"), (3, "November"), (4, "December"),
   (5, "January"), (6, "February"), (7, "March"), (8, "April"),
   (9, "May"), (10, "June"), (11, "July"), (12, "August")]

/-- Modelled from the spec: the simulation loop (§4.2 step 4). Walks the month
list carrying the running balance (seeded with `initial_deposit`), emitting one
`MonthRecord` per month with
`expense = rent + living + tuition(month)`, `net = income − expense`,
`cumulative_balance = previous balance + net`. -/
def simulateMonths (income rent living : ℚ) (pay : TuitionPayment) (tuition_total : ℚ) :
    ℚ → List (ℕ × String) → List MonthRecord
  | _, [] => []
  | bal, (m, label) :: rest =>
      let tuition := tuitionInstallment pay tuition_total m
      let expense := rent + living + tuition
      let net := income - expense
      let newBal := bal + net
      { month_label := label, income := income, expense := expense,
        net := net, cumulative_balance := newBal }
        :: simulateMonths income rent living pay tuition_total newBal rest

/-- Minimum of a list of balances (`0` for the empty list, which the engine
never produces since the ledger always has 12 rows). -/
def minBalance : List ℚ → ℚ
  | [] => 0
  | b :: bs => bs.foldl min b

/-- Modelled from the spec: the engine entry point
`simulate(input, economics) -> (ledger, summary)` (§4.2, §6): the 12-month
ledger in chronological order plus the aggregate summary (§4.2 step 5). -/
def simulate (inp : SimulationInput) (eco : CityEconomics) :
    List MonthRecord × SimulationSummary :=
  let income := monthlyIncome inp.has_job inp.weekly_hours inp.hourly_wage
  let ledger := simulateMonths income eco.monthly_rent eco.monthly_living_cost
    inp.tuition_payment inp.tuition_total inp.initial_deposit monthsIndexed
  let balances := ledger.map (·.cumulative_balance)
  let minBal := minBalance balances
  let critical := (ledger.filter (fun r => decide (r.cumulative_balance < 0))).map
    (·.month_label)
  (ledger,
   { monthly_income := income
     monthly_rent := eco.monthly_rent
     monthly_living_cost := eco.monthly_living_cost
     monthly_expense_base := eco.monthly_rent + eco.monthly_living_cost
     final_balance := balances.getLast?.getD inp.initial_deposit
     min_balance := minBal
     critical_months := critical
     need_support := max 0 (-minBal)
     currency := eco.currency
     currency_symbol := eco.currency_symbol
     data_sources := eco.data_sources })

/-- Modelled from the spec: the input validator (§4.1). `resolvable` stands for
the external Cost Lookup resolving the (country, city) pair. Zero wage with a
job is NOT rejected here — per §4.1/§7 it is a caller-level warning only. -/
def validInput (resolvable : Bool) (inp : SimulationInput) : Bool :=
  resolvable
    && decide (0 ≤ inp.initial_deposit)
    && decide (0 ≤ inp.tuition_total)
    && decide (0 ≤ inp.hourly_wage)
    && decide (0 ≤ inp.weekly_hours)
    && decide (inp.weekly_hours ≤ 40)

/-- Outcome of one run of `main()` in `app.py` after the 计算 (calculate)
button state is read. -/
inductive MainOutcome where
  | idle
  | stoppedZeroWageWarning
  | calculated (ledger : List MonthRecord) (summary : SimulationSummary)
deriving DecidableEq, Repr

/-- The calculate-button flow of `main()` in `app.py` (lines 161–192): when the
button was pressed and `has_job and hourly_wage == 0.0`, the app shows a
warning and calls `st.stop()`, halting the run before any simulation; otherwise
it builds the calculator and computes the result. -/
def mainFlow (calculate_button : Bool) (inp : SimulationInput) (eco : CityEconomics) :
    MainOutcome :=
  if calculate_button then
    if inp.has_job = true ∧ inp.hourly_wage = 0 then
      MainOutcome.stoppedZeroWageWarning
    else
      let res := simulate inp eco
      MainOutcome.calculated res.1 res.2
  else
    MainOutcome.idle

/-- Modelled from the spec: the PDF export artifact. `pdf_generator.py` is not
among the sources at hand; per §6 the PDF is a downstream serialization of the
input, ledger and summary, so the artifact is modelled as that triple. -/
structure PdfReport where
  input : SimulationInput
  ledger : List MonthRecord
  summary : SimulationSummary
deriving DecidableEq, Repr

/-- The session-state key used for the PDF cache in `app.py` line 275:
`f'pdf_bytes_{country}_{city}'`. -/
def pdfKey (country city : String) : String :=
  "pdf_bytes_" ++ country ++ "_" ++ city

/-- The PDF export step of `app.py` (lines 274–296): if the key is absent from
`st.session_state`, generate and store the report; the download button then
serves whatever `st.session_state[pdf_key]` holds. -/
def pdfExportStep (state : List (String × PdfReport))
    (inp : SimulationInput) (eco : CityEconomics) :
    List (String × PdfReport) × PdfReport :=
  let k := pdfKey inp.country inp.city
  match state.lookup k with
  | some pdf => (state, pdf)
  | none =>
      let res := simulate inp eco
      let pdf : PdfReport := { input := inp, ledger := res.1, summary := res.2 }
      ((k, pdf) :: state, pdf)

/-- Does `s` begin with `sub`? Helper for Python's substring test. -/
def leadsList : List Char → List Char → Bool
  | [], _ => true
  | _ :: _, [] => false
  | a :: as, b :: bs => (a == b) && leadsList as bs

/-- Does `s` contain `sub` as a contiguous run? Helper for Python's
`sub in s` substring test on strings. -/
def hasSub (sub : List Char) : List Char → Bool
  | [] => sub.isEmpty
  | c :: t => leadsList sub (c :: t) || hasSub sub t

/-- Python's `sub in s` substring containment on strings. -/
def strContains (sub s : String) : Bool :=
  hasSub sub.data s.data

/-- The column structure of a pandas DataFrame, as far as
`create_cashflow_chart` inspects it: the list of column labels. -/
structure DataFrame where
  columns : List String
deriving DecidableEq, Repr

/-- The columns `create_cashflow_chart` resolves before building the figure. -/
structure ChartColumns where
  balance_col : String
  income_col : String
  expense_col : String
  month_col : String
deriving DecidableEq, Repr

/-- `create_cashflow_chart` from `app.py` (lines 460–547), as far as it is
partial in its DataFrame argument: it takes `[col for col in df.columns if
"累计余额" in col][0]` (an IndexError when no column matches), likewise for
"月收入" and "月支出", and then reads `df["月份"]` (a KeyError when absent).
`none` models the raised exception. -/
def create_cashflow_chart (df : DataFrame) : Option ChartColumns := do
  let balance_col ← (df.columns.filter (fun c => strContains "累计余额" c)).head?
  let income_col ← (df.columns.filter (fun c => strContains "月收入" c)).head?
  let expense_col ← (df.columns.filter (fun c => strContains "月支出" c)).head?
  let month_col ← if "月份" ∈ df.columns then some "月份" else none
  pure { balance_col := balance_col, income_col := income_col,
         expense_col := expense_col, month_col := month_col }

/-! ## Structural lemmas about the simulation loop -/

theorem simulateMonths_length (income rent living : ℚ) (pay : TuitionPayment)
    (tt : ℚ) : ∀ (ms : List (ℕ × String)) (bal : ℚ),
    (simulateMonths income rent living pay tt bal ms).length = ms.length := by
  intro ms
  induction ms with
  | nil => intro bal; rfl
  | cons p rest ih =>
      intro bal
      obtain ⟨m, label⟩ := p
      simp [simulateMonths, ih]

theorem simulateMonths_labels (income rent living : ℚ) (pay : TuitionPayment)
    (tt : ℚ) : ∀ (ms : List (ℕ × String)) (bal : ℚ),
    (simulateMonths income rent living pay tt bal ms).map (·.month_label)
      = ms.map (·.2) := by
  intro ms
  induction ms with
  | nil => intro bal; rfl
  | cons p rest ih =>
      intro bal
      obtain ⟨m, label⟩ := p
      simp [simulateMonths, ih]

theorem simulateMonths_income_map (income rent living : ℚ) (pay : TuitionPayment)
    (tt : ℚ) : ∀ (ms : List (ℕ × String)) (bal : ℚ),
    (simulateMonths income rent living pay tt bal ms).map (·.income)
      = List.replicate ms.length income := by
  intro ms
  induction ms with
  | nil => intro bal; rfl
  | cons p rest ih =>
      intro bal
      obtain ⟨m, label⟩ := p
      simp [simulateMonths, ih, List.replicate_succ]

theorem simulateMonths_tuition_components (income rent living : ℚ)
    (pay : TuitionPayment) (tt : ℚ) : ∀ (ms : List (ℕ × String)) (bal : ℚ),
    (simulateMonths income rent living pay tt bal ms).map
        (fun r => r.expense - (rent + living))
      = ms.map (fun p => tuitionInstallment pay tt p.1) := by
  intro ms
  induction ms with
  | nil => intro bal; rfl
  | cons p rest ih =>
      intro bal
      obtain ⟨m, label⟩ := p
      simp [simulateMonths, ih]

theorem simulateMonths_head_balance (income rent living : ℚ)
    (pay : TuitionPayment) (tt bal : ℚ) (m : ℕ) (label : String)
    (rest : List (ℕ × String)) :
    ((simulateMonths income rent living pay tt bal ((m, label) :: rest)).getD 0
        default).cumulative_balance
      = bal + ((simulateMonths income rent living pay tt bal
          ((m, label) :: rest)).getD 0 default).net := by
  simp [simulateMonths]

theorem simulateMonths_balance_step (income rent living : ℚ)
    (pay : TuitionPayment) (tt : ℚ) :
    ∀ (ms : List (ℕ × String)) (bal : ℚ) (i : ℕ),
    i + 1 < (simulateMonths income rent living pay tt bal ms).length →
    ((simulateMonths income rent living pay tt bal ms).getD (i + 1)
        default).cumulative_balance
      = ((simulateMonths income rent living pay tt bal ms).getD i
          default).cumulative_balance
        + ((simulateMonths income rent living pay tt bal ms).getD (i + 1)
            default).net := by
  intro ms
  induction ms with
  | nil =>
      intro bal i h
      simp [simulateMonths] at h
  | cons p rest ih =>
      intro bal i h
      obtain ⟨m, label⟩ := p
      match i with
      | 0 =>
          match rest with
          | [] =>
              simp [simulateMonths] at h
          | q :: rest2 =>
              obtain ⟨m2, label2⟩ := q
              simp [simulateMonths]
      | Nat.succ j =>
          have h2 : j + 1 < (simulateMonths income rent living pay tt
              (bal + (income - (rent + living + tuitionInstallment pay tt m)))
              rest).length := by
            simp only [simulateMonths, List.length_cons] at h
            omega
          have := ih (bal + (income - (rent + living + tuitionInstallment pay tt m))) j h2
          simpa [simulateMonths] using this

/-! ## Minimum-balance lemmas -/

theorem foldl_min_lt_iff (x : ℚ) : ∀ (l : List ℚ) (b : ℚ),
    List.foldl min b l < x ↔ b < x ∨ ∃ a ∈ l, a < x := by
  intro l
  induction l with
  | nil => intro b; simp
  | cons c cs ih =>
      intro b
      rw [List.foldl_cons, ih, min_lt_iff]
      simp only [List.mem_cons]
      constructor
      · rintro (⟨hb | hc⟩ | ⟨a, ha, hax⟩)
        · exact Or.inl hb
        · exact Or.inr ⟨c, Or.inl rfl, hc⟩
        · exact Or.inr ⟨a, Or.inr ha, hax⟩
      · rintro (hb | ⟨a, ha | ha, hax⟩)
        · exact Or.inl (Or.inl hb)
        · exact Or.inl (Or.inr (ha ▸ hax))
        · exact Or.inr ⟨a, ha, hax⟩

theorem minBalance_neg_iff (l : List ℚ) : minBalance l < 0 ↔ ∃ b ∈ l, b < 0 := by
  cases l with
  | nil => simp [minBalance]
  | cons b bs => simp [minBalance, foldl_min_lt_iff]

/-! ## Sample inputs used by the witnesses (Scenario A / Scenario B of §8) -/

/-- Sample city economics: rent 800, living cost 600 (Scenario A of §8). -/
def sampleEco : CityEconomics :=
  { monthly_rent := 800, monthly_living_cost := 600, currency := "EUR",
    currency_symbol := "€", data_sources := ["Numbeo"] }

/-- Scenario A input of §8: no job, 5000 deposit, 5000 tuition, lump sum. -/
def sampleInput : SimulationInput :=
  { country := "Germany", city := "Berlin", rent_type := .privateRoom,
    has_job := false, weekly_hours := 0, hourly_wage := 0,
    initial_deposit := 5000, tuition_total := 5000, tuition_payment := .lumpSum }

/-- Scenario B input of §8: job with 10 weekly hours at wage 15, installment. -/
def sampleJobInput : SimulationInput :=
  { country := "Germany", city := "Berlin", rent_type := .sharedRoom,
    has_job := true, weekly_hours := 10, hourly_wage := 15,
    initial_deposit := 5000, tuition_total := 5000,
    tuition_payment := .installment }

/-! ## Claim theorems -/

/-- Claim C5: for every valid input, `simulate` returns a ledger of exactly 12
`MonthRecord`s in fixed chronological order, September first and August last. -/
theorem simulate_ledger_length_order (inp : SimulationInput) (eco : CityEconomics) :
    (simulate inp eco).1.length = 12
    ∧ (simulate inp eco).1.map (·.month_label)
        = ["September", "October", "November", "December", "January", "February",
           "March", "April", "May", "June", "July", "August"] := by
  have hled : (simulate inp eco).1
      = simulateMonths (monthlyIncome inp.has_job inp.weekly_hours inp.hourly_wage)
          eco.monthly_rent eco.monthly_living_cost inp.tuition_payment
          inp.tuition_total inp.initial_deposit monthsIndexed := rfl
  constructor
  · rw [hled, simulateMonths_length]
    rfl
  · rw [hled, simulateMonths_labels]
    rfl

/-- Claim C1: the ledger produced by `simulate` satisfies the balance
recurrence exactly: `cumulative_balance[0] = initial_deposit + net[0]`, and for
every `0 < i < 12`,
`cumulative_balance[i] = cumulative_balance[i-1] + net[i]`. -/
theorem simulate_balance_recurrence (inp : SimulationInput) (eco : CityEconomics) :
    ((simulate inp eco).1.getD 0 default).cumulative_balance
      = inp.initial_deposit + ((simulate inp eco).1.getD 0 default).net
    ∧ ∀ i : ℕ, 0 < i → i < 12 →
        ((simulate inp eco).1.getD i default).cumulative_balance
          = ((simulate inp eco).1.getD (i - 1) default).cumulative_balance
            + ((simulate inp eco).1.getD i default).net := by
  have hled : (simulate inp eco).1
      = simulateMonths (monthlyIncome inp.has_job inp.weekly_hours inp.hourly_wage)
          eco.monthly_rent eco.monthly_living_cost inp.tuition_payment
          inp.tuition_total inp.initial_deposit monthsIndexed := rfl
  constructor
  · rw [hled]
    exact simulateMonths_head_balance _ _ _ _ _ _ 1 "September"
      [(2, "October"), (3, "November"), (4, "December"), (5, "January"),
       (6, "February"), (7, "March"), (8, "April"), (9, "May"), (10, "June"),
       (11, "July"), (12, "August")]
  · intro i hi hlt
    obtain ⟨j, rfl⟩ : ∃ j, i = j + 1 := ⟨i - 1, (Nat.succ_pred_eq_of_pos hi).symm⟩
    simp only [Nat.add_sub_cancel]
    rw [hled]
    apply simulateMonths_balance_step
    rw [simulateMonths_length]
    simpa [monthsIndexed] using hlt

/-- Witness for C1 at Scenario A, month index 1. -/
theorem simulate_balance_recurrence_witness :
    (0 < 1 ∧ 1 < 12)
    ∧ ((simulate sampleInput sampleEco).1.getD 1 default).cumulative_balance
        = ((simulate sampleInput sampleEco).1.getD 0 default).cumulative_balance
          + ((simulate sampleInput sampleEco).1.getD 1 default).net := by
  refine ⟨⟨by decide, by decide⟩, ?_⟩
  have h := (simulate_balance_recurrence sampleInput sampleEco).2 1 (by decide) (by decide)
  simpa using h

/-- Claim C6: `monthly_income = weekly_hours × 4.33 × hourly_wage` when
`has_job`, and `0` otherwise; the same income is applied uniformly to all 12
months of the ledger. -/
theorem simulate_monthly_income_spec (inp : SimulationInput) (eco : CityEconomics) :
    (simulate inp eco).2.monthly_income
      = (if inp.has_job then inp.weekly_hours * (433 / 100) * inp.hourly_wage else 0)
    ∧ (simulate inp eco).1.map (·.income)
        = List.replicate 12 ((simulate inp eco).2.monthly_income) := by
  have hled : (simulate inp eco).1
      = simulateMonths (monthlyIncome inp.has_job inp.weekly_hours inp.hourly_wage)
          eco.monthly_rent eco.monthly_living_cost inp.tuition_payment
          inp.tuition_total inp.initial_deposit monthsIndexed := rfl
  have hinc : (simulate inp eco).2.monthly_income
      = monthlyIncome inp.has_job inp.weekly_hours inp.hourly_wage := rfl
  constructor
  · rw [hinc, monthlyIncome]
  · rw [hinc, hled, simulateMonths_income_map]
    rfl

/-- Claim C8: the engine is deterministic — identical `SimulationInput` and
identical `CityEconomics` yield identical ledgers and summaries in every
field. -/
theorem simulate_deterministic (inp1 inp2 : SimulationInput)
    (eco1 eco2 : CityEconomics) (hinp : inp1 = inp2) (heco : eco1 = eco2) :
    simulate inp1 eco1 = simulate inp2 eco2 := by
  subst hinp
  subst heco
  rfl

/-- Witness for C8 at Scenario A. -/
theorem simulate_deterministic_witness :
    (sampleInput = sampleInput ∧ sampleEco = sampleEco)
    ∧ simulate sampleInput sampleEco = simulate sampleInput sampleEco :=
  ⟨⟨rfl, rfl⟩, simulate_deterministic sampleInput sampleInput sampleEco sampleEco rfl rfl⟩

/-- Claim C9: for `has_job = true`, `weekly_hours = 10`, `hourly_wage = 15`,
the computed monthly income is exactly `649.5 = 1299/2` in the engine's
(exact rational) arithmetic. -/
theorem simulate_scenario_b_income (inp : SimulationInput) (eco : CityEconomics)
    (hj : inp.has_job = true) (hw : inp.weekly_hours = 10)
    (hr : inp.hourly_wage = 15) :
    (simulate inp eco).2.monthly_income = 1299 / 2 := by
  have hinc : (simulate inp eco).2.monthly_income
      = monthlyIncome inp.has_job inp.weekly_hours inp.hourly_wage := rfl
  rw [hinc, monthlyIncome, hj, hw, hr]
  norm_num

/-- Witness for C9 at the Scenario B input. -/
theorem simulate_scenario_b_income_witness :
    (sampleJobInput.has_job = true ∧ sampleJobInput.weekly_hours = 10
      ∧ sampleJobInput.hourly_wage = 15)
    ∧ (simulate sampleJobInput sampleEco).2.monthly_income = 1299 / 2 :=
  ⟨⟨rfl, rfl, rfl⟩,
   simulate_scenario_b_income sampleJobInput sampleEco rfl rfl rfl⟩

/-- Claim C3: `need_support = max(0, −min_balance)` with `min_balance` the
minimum cumulative balance over the 12 months, and `need_support > 0` iff
`critical_months` (labels of months with negative cumulative balance) is
non-empty. -/
theorem simulate_need_support_spec (inp : SimulationInput) (eco : CityEconomics) :
    (simulate inp eco).2.need_support
      = max 0 (-(minBalance ((simulate inp eco).1.map (·.cumulative_balance))))
    ∧ (simulate inp eco).2.min_balance
      = minBalance ((simulate inp eco).1.map (·.cumulative_balance))
    ∧ (0 < (simulate inp eco).2.need_support
        ↔ (simulate inp eco).2.critical_months ≠ []) := by
  refine ⟨rfl, rfl, ?_⟩
  have h1 : (simulate inp eco).2.need_support
      = max 0 (-(minBalance ((simulate inp eco).1.map (·.cumulative_balance)))) := rfl
  have h2 : (simulate inp eco).2.critical_months
      = ((simulate inp eco).1.filter
          (fun r => decide (r.cumulative_balance < 0))).map (·.month_label) := rfl
  rw [h1, h2, lt_max_iff]
  simp only [lt_self_iff_false, false_or, neg_pos]
  rw [minBalance_neg_iff]
  constructor
  · rintro ⟨b, hb, hbneg⟩ hnil
    obtain ⟨r, hr, rfl⟩ := List.mem_map.mp hb
    rw [List.map_eq_nil_iff, List.filter_eq_nil_iff] at hnil
    exact hnil r hr (by simpa using hbneg)
  · intro hne
    have hfil : (simulate inp eco).1.filter
        (fun r => decide (r.cumulative_balance < 0)) ≠ [] := by
      intro hf
      exact hne (by rw [hf]; rfl)
    obtain ⟨r, hr⟩ := List.exists_mem_of_ne_nil _ hfil
    obtain ⟨hrl, hrneg⟩ := List.mem_filter.mp hr
    exact ⟨r.cumulative_balance, List.mem_map_of_mem _ hrl, by simpa using hrneg⟩

/-- Witness for C3 at Scenario A. -/
theorem simulate_need_support_spec_witness :
    (simulate sampleInput sampleEco).2.need_support
      = max 0 (-(minBalance ((simulate sampleInput sampleEco).1.map
          (·.cumulative_balance))))
    ∧ (simulate sampleInput sampleEco).2.min_balance
      = minBalance ((simulate sampleInput sampleEco).1.map (·.cumulative_balance))
    ∧ (0 < (simulate sampleInput sampleEco).2.need_support
        ↔ (simulate sampleInput sampleEco).2.critical_months ≠ []) :=
  simulate_need_support_spec sampleInput sampleEco

/-- Claim C2: the tuition components of the ledger (expense minus the
rent-plus-living base): LumpSum charges the full `tuition_total` in month 1 and
0 elsewhere, summing exactly to `tuition_total`; Installment charges
`tuition_total / 10` in months 1–10 and 0 in months 11–12, with the 12-month
sum within `0.01` of `tuition_total`. -/
theorem simulate_tuition_schedule (inp : SimulationInput) (eco : CityEconomics) :
    (inp.tuition_payment = TuitionPayment.lumpSum →
      (simulate inp eco).1.map
          (fun r => r.expense - (eco.monthly_rent + eco.monthly_living_cost))
        = [inp.tuition_total, 0, 0, 0, 0, 0, 0, 0, 0, 0, 0, 0]
      ∧ ((simulate inp eco).1.map
          (fun r => r.expense - (eco.monthly_rent + eco.monthly_living_cost))).sum
        = inp.tuition_total)
    ∧ (inp.tuition_payment = TuitionPayment.installment →
      (simulate inp eco).1.map
          (fun r => r.expense - (eco.monthly_rent + eco.monthly_living_cost))
        = [inp.tuition_total / 10, inp.tuition_total / 10, inp.tuition_total / 10,
           inp.tuition_total / 10, inp.tuition_total / 10, inp.tuition_total / 10,
           inp.tuition_total / 10, inp.tuition_total / 10, inp.tuition_total / 10,
           inp.tuition_total / 10, 0, 0]
      ∧ |((simulate inp eco).1.map
          (fun r => r.expense - (eco.monthly_rent + eco.monthly_living_cost))).sum
          - inp.tuition_total| ≤ 1 / 100) := by
  have hled : (simulate inp eco).1
      = simulateMonths (monthlyIncome inp.has_job inp.weekly_hours inp.hourly_wage)
          eco.monthly_rent eco.monthly_living_cost inp.tuition_payment
          inp.tuition_total inp.initial_deposit monthsIndexed := rfl
  have hcomp := simulateMonths_tuition_components
      (monthlyIncome inp.has_job inp.weekly_hours inp.hourly_wage)
      eco.monthly_rent eco.monthly_living_cost inp.tuition_payment
      inp.tuition_total monthsIndexed inp.initial_deposit
  constructor
  · intro hpay
    rw [hled, hcomp, hpay]
    constructor
    · simp [monthsIndexed, tuitionInstallment]
    · simp [monthsIndexed, tuitionInstallment]
  · intro hpay
    rw [hled, hcomp, hpay]
    refine ⟨by simp [monthsIndexed, tuitionInstallment], ?_⟩
    have hs : (monthsIndexed.map
        (fun p => tuitionInstallment TuitionPayment.installment
          inp.tuition_total p.1)).sum = inp.tuition_total := by
      simp [monthsIndexed, tuitionInstallment]
      ring
    rw [hs, sub_self, abs_zero]
    norm_num

/-- Witness for C2: LumpSum at Scenario A, Installment at Scenario B. -/
theorem simulate_tuition_schedule_witness :
    (sampleInput.tuition_payment = TuitionPayment.lumpSum
      ∧ ((simulate sampleInput sampleEco).1.map
          (fun r => r.expense
            - (sampleEco.monthly_rent + sampleEco.monthly_living_cost))).sum
        = sampleInput.tuition_total)
    ∧ (sampleJobInput.tuition_payment = TuitionPayment.installment
      ∧ |((simulate sampleJobInput sampleEco).1.map
          (fun r => r.expense
            - (sampleEco.monthly_rent + sampleEco.monthly_living_cost))).sum
          - sampleJobInput.tuition_total| ≤ 1 / 100) :=
  ⟨⟨rfl, ((simulate_tuition_schedule sampleInput sampleEco).1 rfl).2⟩,
   ⟨rfl, ((simulate_tuition_schedule sampleJobInput sampleEco).2 rfl).2⟩⟩

/-- A zero-wage-with-job input: job checked, 10 weekly hours, wage 0. -/
def zeroWageInput : SimulationInput :=
  { country := "Germany", city := "Berlin", rent_type := .privateRoom,
    has_job := true, weekly_hours := 10, hourly_wage := 0,
    initial_deposit := 5000, tuition_total := 5000, tuition_payment := .lumpSum }

/-- Counterexample to claim C4: submitting a zero-wage-with-job input for
calculation does NOT run the simulation — `app.py` line 174 calls `st.stop()`
after the warning, so the run halts before any simulation is performed. -/
theorem mainFlow_zero_wage_counterexample :
    mainFlow true zeroWageInput sampleEco = MainOutcome.stoppedZeroWageWarning
    ∧ mainFlow true zeroWageInput sampleEco
        ≠ MainOutcome.calculated (simulate zeroWageInput sampleEco).1
            (simulate zeroWageInput sampleEco).2 := by
  have h1 : mainFlow true zeroWageInput sampleEco
      = MainOutcome.stoppedZeroWageWarning := by
    simp [mainFlow, zeroWageInput]
  refine ⟨h1, ?_⟩
  rw [h1]
  intro h
  exact MainOutcome.noConfusion h

/-- Claim C4 as amended: the engine side accepts zero wage with a job as valid
input with `monthly_income = 0`, but the caller in `app.py` warns the user and
SUPPRESSES the calculation (`st.stop()`): the simulation is not performed. -/
theorem mainFlow_zero_wage_amended (inp : SimulationInput) (eco : CityEconomics)
    (hj : inp.has_job = true) (hw : inp.hourly_wage = 0)
    (hd : 0 ≤ inp.initial_deposit) (ht : 0 ≤ inp.tuition_total)
    (hwh0 : 0 ≤ inp.weekly_hours) (hwh40 : inp.weekly_hours ≤ 40) :
    validInput true inp = true
    ∧ monthlyIncome inp.has_job inp.weekly_hours inp.hourly_wage = 0
    ∧ mainFlow true inp eco = MainOutcome.stoppedZeroWageWarning := by
  refine ⟨?_, ?_, ?_⟩
  · simp [validInput, hd, ht, hw, hwh0, hwh40]
  · rw [monthlyIncome, hj, hw]
    simp
  · simp [mainFlow, hj, hw]

/-- Witness for the amended C4 at the concrete zero-wage input. -/
theorem mainFlow_zero_wage_amended_witness :
    (zeroWageInput.has_job = true ∧ zeroWageInput.hourly_wage = 0
      ∧ 0 ≤ zeroWageInput.initial_deposit ∧ 0 ≤ zeroWageInput.tuition_total
      ∧ 0 ≤ zeroWageInput.weekly_hours ∧ zeroWageInput.weekly_hours ≤ 40)
    ∧ validInput true zeroWageInput = true
    ∧ monthlyIncome zeroWageInput.has_job zeroWageInput.weekly_hours
        zeroWageInput.hourly_wage = 0
    ∧ mainFlow true zeroWageInput sampleEco = MainOutcome.stoppedZeroWageWarning :=
  ⟨⟨rfl, rfl, by norm_num [zeroWageInput], by norm_num [zeroWageInput],
    by norm_num [zeroWageInput], by norm_num [zeroWageInput]⟩,
   mainFlow_zero_wage_amended zeroWageInput sampleEco rfl rfl
     (by norm_num [zeroWageInput]) (by norm_num [zeroWageInput])
     (by norm_num [zeroWageInput]) (by norm_num [zeroWageInput])⟩

/-- Scenario A input with a different initial deposit (same country, city). -/
def depositVariantInput : SimulationInput :=
  { country := "Germany", city := "Berlin", rent_type := .privateRoom,
    has_job := false, weekly_hours := 0, hourly_wage := 0,
    initial_deposit := 6000, tuition_total := 5000, tuition_payment := .lumpSum }

/-- Counterexample to claim C7: the PDF cache key in `app.py` line 275 is
`f'pdf_bytes_{country}_{city}'`, not the full input tuple. Two requests that
differ in `initial_deposit` but share country and city hit the same key, so the
second request is served the artifact generated for the first. -/
theorem pdf_cache_counterexample :
    sampleInput ≠ depositVariantInput
    ∧ (pdfExportStep (pdfExportStep [] sampleInput sampleEco).1
          depositVariantInput sampleEco).2
        = (pdfExportStep [] sampleInput sampleEco).2
    ∧ (pdfExportStep [] sampleInput sampleEco).2.input = sampleInput := by
  refine ⟨by decide, ?_, rfl⟩
  rfl

/-- Claim C7 as amended: the PDF cache is keyed by `(country, city)` only —
whenever two requests share country and city, the artifact cached for the first
is served in response to the second, even if every other input field differs. -/
theorem pdf_cache_keyed_by_city_amended (inpA inpB : SimulationInput)
    (ecoA ecoB : CityEconomics)
    (hc : inpA.country = inpB.country) (hcity : inpA.city = inpB.city) :
    (pdfExportStep (pdfExportStep [] inpA ecoA).1 inpB ecoB).2
      = (pdfExportStep [] inpA ecoA).2 := by
  have h1 : pdfExportStep [] inpA ecoA
      = ([(pdfKey inpA.country inpA.city,
           { input := inpA, ledger := (simulate inpA ecoA).1,
             summary := (simulate inpA ecoA).2 })],
         { input := inpA, ledger := (simulate inpA ecoA).1,
           summary := (simulate inpA ecoA).2 }) := rfl
  rw [h1]
  have hk : pdfKey inpB.country inpB.city = pdfKey inpA.country inpA.city := by
    rw [pdfKey, pdfKey, hc, hcity]
  simp [pdfExportStep, hk, List.lookup]

/-- Witness for the amended C7 at the two concrete deposit-variant requests. -/
theorem pdf_cache_keyed_by_city_amended_witness :
    (sampleInput.country = depositVariantInput.country
      ∧ sampleInput.city = depositVariantInput.city)
    ∧ (pdfExportStep (pdfExportStep [] sampleInput sampleEco).1
          depositVariantInput sampleEco).2
        = (pdfExportStep [] sampleInput sampleEco).2 :=
  ⟨⟨rfl, rfl⟩,
   pdf_cache_keyed_by_city_amended sampleInput depositVariantInput
     sampleEco sampleEco rfl rfl⟩

/-- The head of a filtered list exists exactly when some element satisfies the
filter. -/
theorem filter_head_isSome {α : Type} (p : α → Bool) (l : List α) :
    ((l.filter p).head?).isSome = l.any p := by
  induction l with
  | nil => rfl
  | cons a t ih =>
      cases hp : p a with
      | true => simp [List.filter_cons, hp]
      | false =>
          rw [List.filter_cons, hp]
          simp only [Bool.false_eq_true, if_false, ih]
          simp [hp]

/-- Claim C10: `create_cashflow_chart` succeeds exactly when the DataFrame has
a column named 月份 and at least one column containing each of the substrings
累计余额, 月收入 and 月支出; if any of these is missing, it fails (the `[0]`
index on an empty match list / the `df["月份"]` key lookup). -/
theorem create_cashflow_chart_partiality (df : DataFrame) :
    (create_cashflow_chart df).isSome = true
      ↔ ("月份" ∈ df.columns
          ∧ (∃ c ∈ df.columns, strContains "累计余额" c = true)
          ∧ (∃ c ∈ df.columns, strContains "月收入" c = true)
          ∧ (∃ c ∈ df.columns, strContains "月支出" c = true)) := by
  have e1 := filter_head_isSome (fun c => strContains "累计余额" c) df.columns
  have e2 := filter_head_isSome (fun c => strContains "月收入" c) df.columns
  have e3 := filter_head_isSome (fun c => strContains "月支出" c) df.columns
  cases h1 : (df.columns.filter (fun c => strContains "累计余额" c)).head? with
  | none =>
      rw [h1] at e1
      simp only [create_cashflow_chart, h1, Option.bind]
      simp [← List.any_eq_true, ← e1]
  | some b =>
      rw [h1] at e1
      cases h2 : (df.columns.filter (fun c => strContains "月收入" c)).head? with
      | none =>
          rw [h2] at e2
          simp only [create_cashflow_chart, h1, h2, Option.bind]
          simp [← List.any_eq_true, ← e1, ← e2]
      | some i =>
          rw [h2] at e2
          cases h3 : (df.columns.filter (fun c => strContains "月支出" c)).head? with
          | none =>
              rw [h3] at e3
              simp only [create_cashflow_chart, h1, h2, h3, Option.bind]
              simp [← List.any_eq_true, ← e1, ← e2, ← e3]
          | some x =>
              rw [h3] at e3
              by_cases h4 : "月份" ∈ df.columns
              · simp only [create_cashflow_chart, h1, h2, h3, Option.bind]
                simp [h4, ← List.any_eq_true, ← e1, ← e2, ← e3]
              · simp only [create_cashflow_chart, h1, h2, h3, Option.bind]
                simp [h4]

/-- A DataFrame with the ledger's column labels, as the calculator emits them
(月份, 月收入, 月支出, 累计余额 with currency suffixes). -/
def sampleDf : DataFrame :=
  { columns := ["月份", "月收入（€）", "月支出（€）", "净收支（€）", "累计余额（€）"] }

/-- Witness for C10: on a ledger-shaped DataFrame the chart succeeds, and the
iff instance holds. -/
theorem create_cashflow_chart_partiality_witness :
    (create_cashflow_chart sampleDf).isSome = true
      ↔ ("月份" ∈ sampleDf.columns
          ∧ (∃ c ∈ sampleDf.columns, strContains "累计余额" c = true)
          ∧ (∃ c ∈ sampleDf.columns, strContains "月收入" c = true)
          ∧ (∃ c ∈ sampleDf.columns, strContains "月支出" c = true)) :=
  create_cashflow_chart_partiality sampleDf
